import Mathlib

/-!
Verification of the slate-detection core of the davinci-resolve-mcp repository
(`src/resolve_mcp/slate_detection.py`), as a shallow embedding in Lean 4.

Python strings are modelled as `List Char` (the slate texts are ASCII);
Python float scores are modelled as exact rationals `ℚ` (the source only
adds decimal constants and compares against decimal thresholds).
Python truthiness of an optional string (`None` and `""` are falsy) is
modelled by `isTruthy`.
-/

namespace SlateDetection

/-- Characters treated as whitespace by Python's `str.strip()` / `str.split()`. -/
def isPySpace (c : Char) : Bool :=
  c == ' ' || c == '\t' || c == '\n' || c == '\r' || c == '\x0b' || c == '\x0c'

/-- Python `s.strip()`: remove leading and trailing whitespace. -/
def pyStrip (cs : List Char) : List Char :=
  ((cs.dropWhile isPySpace).reverse.dropWhile isPySpace).reverse

/-- Python `s.strip(':')`: remove leading and trailing colons. -/
def pyStripColon (cs : List Char) : List Char :=
  ((cs.dropWhile (· == ':')).reverse.dropWhile (· == ':')).reverse

/-- Helper for `pySplitOn`, accumulating the current segment in reverse. -/
def pySplitOnAux (sep : Char) : List Char → List Char → List (List Char)
  | [], acc => [acc.reverse]
  | c :: rest, acc =>
    if c == sep then acc.reverse :: pySplitOnAux sep rest []
    else pySplitOnAux sep rest (c :: acc)

/-- Python `s.split(sep)` for a single-character separator (keeps empty segments). -/
def pySplitOn (sep : Char) (cs : List Char) : List (List Char) :=
  pySplitOnAux sep cs []

/-- Helper for `pySplitWs`, accumulating the current word in reverse. -/
def pySplitWsAux : List Char → List Char → List (List Char)
  | [], acc => if acc.isEmpty then [] else [acc.reverse]
  | c :: rest, acc =>
    if isPySpace c then
      if acc.isEmpty then pySplitWsAux rest []
      else acc.reverse :: pySplitWsAux rest []
    else pySplitWsAux rest (c :: acc)

/-- Python `s.split()` with no argument: split on whitespace runs, dropping empties. -/
def pySplitWs (cs : List Char) : List (List Char) :=
  pySplitWsAux cs []

/-- Python `s.upper()` (ASCII). -/
def upperChars (cs : List Char) : List Char :=
  cs.map Char.toUpper

/-- Substring containment, Python's `needle in haystack` on strings. -/
def isSubstr (needle : List Char) : List Char → Bool
  | [] => needle.isEmpty
  | c :: rest => needle.isPrefixOf (c :: rest) || isSubstr needle rest

/-- Python `s.endswith(suffix)`. -/
def pyEndsWith (s suffix : List Char) : Bool :=
  suffix.reverse.isPrefixOf s.reverse

/-- Python `s.replace('/', '').replace('-', '')`. -/
def stripSlashDash (cs : List Char) : List Char :=
  (cs.filter (fun c => c != '/')).filter (fun c => c != '-')

/-- Python `s.isalnum()` (ASCII): nonempty and all alphanumeric. -/
def pyIsAlnum (cs : List Char) : Bool :=
  !cs.isEmpty && cs.all (fun c => c.isAlpha || c.isDigit)

/-- Python `s.isdigit()` (ASCII): nonempty and all decimal digits. -/
def pyIsDigit (cs : List Char) : Bool :=
  !cs.isEmpty && cs.all Char.isDigit

/-- Python truthiness of an optional string: `None` and `""` are falsy. -/
def isTruthy : Option (List Char) → Bool
  | none => false
  | some s => !s.isEmpty

/-- The `SlateInfo` dataclass of `slate_detection.py` (all fields default-unset). -/
structure SlateInfo where
  production : Option (List Char) := none
  slate_number : Option (List Char) := none
  scene : Option (List Char) := none
  take : Option (List Char) := none
  roll : Option (List Char) := none
  camera : Option (List Char) := none
  director : Option (List Char) := none
  date : Option (List Char) := none
  confidence : ℚ := 0
  frame_number : Nat := 0
deriving DecidableEq, Repr

/-- The default `SlateInfo()` constructed by the Python source. -/
def SlateInfo.empty : SlateInfo := {}

/-- Guard of the SLATE/SCENE rule: `'SLATE' in line or 'SCENE' in line`. -/
def guardSlateScene (line : List Char) : Bool :=
  isSubstr "SLATE".data line || isSubstr "SCENE".data line

/-- Guard of the TAKE rule: `'TAKE' in line`. -/
def guardTake (line : List Char) : Bool :=
  isSubstr "TAKE".data line

/-- Guard of the ROLL rule: `'ROLL' in line`. -/
def guardRoll (line : List Char) : Bool :=
  isSubstr "ROLL".data line

/-- Guard of the CAMERA rule: `'CAMERA' in line or 'CAM' in line`. -/
def guardCamera (line : List Char) : Bool :=
  isSubstr "CAMERA".data line || isSubstr "CAM".data line

/-- The SLATE/SCENE token scan of `_parse_slate_text`: for each word followed by
a next word, when the word equals `SLATE` or `SCENE` and the colon-stripped next
word is alphanumeric after removing `/` and `-`, assign it (unconditionally) to
`slate_number` when `'SLATE' in word`, else to `scene`. -/
def scanSlateScene : SlateInfo → List (List Char) → SlateInfo
  | s, w1 :: w2 :: rest =>
    scanSlateScene
      (if (w1 = "SLATE".data || w1 = "SCENE".data)
          && pyIsAlnum (stripSlashDash (pyStripColon w2)) then
        (if isSubstr "SLATE".data w1 then
          { s with slate_number := some (pyStripColon w2) }
        else
          { s with scene := some (pyStripColon w2) })
      else s)
      (w2 :: rest)
  | s, _ => s

/-- The TAKE token scan of `_parse_slate_text`: a word containing `TAKE` with a
following word whose colon-stripped form is all digits assigns `take`. -/
def scanTake : SlateInfo → List (List Char) → SlateInfo
  | s, w1 :: w2 :: rest =>
    scanTake
      (if isSubstr "TAKE".data w1 && pyIsDigit (pyStripColon w2) then
        { s with take := some (pyStripColon w2) }
      else s)
      (w2 :: rest)
  | s, _ => s

/-- The ROLL token scan of `_parse_slate_text`. -/
def scanRoll : SlateInfo → List (List Char) → SlateInfo
  | s, w1 :: w2 :: rest =>
    scanRoll
      (if isSubstr "ROLL".data w1
          && pyIsAlnum (stripSlashDash (pyStripColon w2)) then
        { s with roll := some (pyStripColon w2) }
      else s)
      (w2 :: rest)
  | s, _ => s

/-- The CAMERA token scan of `_parse_slate_text`: a word containing `CAMERA` or
`CAM` with a following word passing the alphanumeric test assigns `camera`. -/
def scanCamera : SlateInfo → List (List Char) → SlateInfo
  | s, w1 :: w2 :: rest =>
    scanCamera
      (if (isSubstr "CAMERA".data w1 || isSubstr "CAM".data w1)
          && pyIsAlnum (stripSlashDash (pyStripColon w2)) then
        { s with camera := some (pyStripColon w2) }
      else s)
      (w2 :: rest)
  | s, _ => s

/-- Eligibility of a normalized line for the production rule: longer than 5
characters, containing none of the five keyword substrings checked by the
source (`SLATE, SCENE, TAKE, ROLL, CAMERA` — note: not `CAM`), and purely
alphanumeric after removing spaces. -/
def productionEligible (line : List Char) : Bool :=
  decide (5 < line.length)
  && !(isSubstr "SLATE".data line || isSubstr "SCENE".data line
       || isSubstr "TAKE".data line || isSubstr "ROLL".data line
       || isSubstr "CAMERA".data line)
  && pyIsAlnum (line.filter (fun c => c != ' '))

/-- One iteration of the line loop of `SlateDetector._parse_slate_text`:
normalize the line (`strip().upper()`), run the four keyword scans under their
guards, then the production rule (which alone checks that its field is unset). -/
def processLine (s : SlateInfo) (rawLine : List Char) : SlateInfo :=
  let line := upperChars (pyStrip rawLine)
  let words := pySplitWs line
  let s := if guardSlateScene line then scanSlateScene s words else s
  let s := if guardTake line then scanTake s words else s
  let s := if guardRoll line then scanRoll s words else s
  let s := if guardCamera line then scanCamera s words else s
  if productionEligible line && !(isTruthy s.production) then
    { s with production := some line }
  else s

/-- Embedding of `SlateDetector._parse_slate_text`: strip the text, split into lines, and
run the line loop starting from a fresh `SlateInfo()`. -/
def parse_slate_text (text : List Char) : SlateInfo :=
  (pySplitOn '\n' (pyStrip text)).foldl processLine SlateInfo.empty

/-- Embedding of `SlateDetector._calculate_confidence`: sequentially accumulate the weights
of the detected fields (Python truthiness: a field counts when present and
nonempty) on top of a base 0.1 for raw text longer than 10 characters, then
clamp at 1. Scores are exact rationals. -/
def calculate_confidence (slate_info : SlateInfo) (raw_text : List Char) : ℚ :=
  let confidence : ℚ := 0
  let confidence := if 10 < (pyStrip raw_text).length then confidence + 1/10 else confidence
  let confidence := if isTruthy slate_info.slate_number then confidence + 3/10 else confidence
  let confidence := if isTruthy slate_info.scene then confidence + 2/10 else confidence
  let confidence := if isTruthy slate_info.take then confidence + 2/10 else confidence
  let confidence := if isTruthy slate_info.roll then confidence + 1/10 else confidence
  let confidence := if isTruthy slate_info.camera then confidence + 1/10 else confidence
  let confidence := if isTruthy slate_info.production then confidence + 1/10 else confidence
  min confidence 1

/-- Closed-form score following the spec's words in §4.3: a sum of indicator
terms, clamped at 1 from above.  Per the spec's data model (§3, "all text
fields are either unset or a non-empty trimmed token"), "is set" coincides
with Python truthiness, which is used here. -/
def confidence_spec_score (slate_info : SlateInfo) (raw_text : List Char) : ℚ :=
  (if 10 < (pyStrip raw_text).length then (1 : ℚ)/10 else 0)
  + (if isTruthy slate_info.slate_number then (3 : ℚ)/10 else 0)
  + (if isTruthy slate_info.scene then (2 : ℚ)/10 else 0)
  + (if isTruthy slate_info.take then (2 : ℚ)/10 else 0)
  + (if isTruthy slate_info.roll then (1 : ℚ)/10 else 0)
  + (if isTruthy slate_info.camera then (1 : ℚ)/10 else 0)
  + (if isTruthy slate_info.production then (1 : ℚ)/10 else 0)

/-- Python `"_".join(parts)`. -/
def joinUnderscore : List (List Char) → List Char
  | [] => []
  | [p] => p
  | p :: q :: rest => p ++ '_' :: joinUnderscore (q :: rest)

/-- Embedding of `ClipRenamer.generate_clip_name`: assemble `name_parts` (production, then
scene else slate number, then take, then camera — each under Python
truthiness), return the original name when no part was produced, otherwise
join with underscores and re-append the original name's extension (the
segment after its last dot) when the new name does not already end in it. -/
def generate_clip_name (slate_info : SlateInfo) (original_name : List Char) : List Char :=
  let name_parts : List (List Char) := []
  let name_parts := if isTruthy slate_info.production then
      name_parts ++ [slate_info.production.getD []] else name_parts
  let name_parts := if isTruthy slate_info.scene then
      name_parts ++ ["Scene_".data ++ slate_info.scene.getD []]
    else if isTruthy slate_info.slate_number then
      name_parts ++ ["Slate_".data ++ slate_info.slate_number.getD []]
    else name_parts
  let name_parts := if isTruthy slate_info.take then
      name_parts ++ ["Take_".data ++ slate_info.take.getD []] else name_parts
  let name_parts := if isTruthy slate_info.camera then
      name_parts ++ ["Cam_".data ++ slate_info.camera.getD []] else name_parts
  if name_parts.isEmpty then original_name
  else
    let new_name := joinUnderscore name_parts
    if original_name.contains '.' then
      let ext := ((pySplitOn '.' original_name).getLast?).getD []
      if !(pyEndsWith new_name ('.' :: ext)) then new_name ++ '.' :: ext
      else new_name
    else new_name

/-- The frame loop of `analyze_video_for_slate`, instrumented.  The frame
stream is modelled as a list (`cap.read()` failing = end of list) and the
per-frame OCR analysis `SlateDetector.analyze_frame` as a function parameter.
Every 5th frame below the cap is analyzed, tagged with its frame number; the
best candidate is replaced only on strictly greater confidence, and the loop
breaks as soon as a candidate's confidence exceeds 0.8.  Returns the final
best candidate together with the list of analyzed candidates in order. -/
def analyzeVideoLoop {α : Type} (analyze : α → SlateInfo) (max_frames : Nat) :
    SlateInfo → Nat → List α → SlateInfo × List SlateInfo
  | best, _, [] => (best, [])
  | best, frame_count, f :: rest =>
    if frame_count < max_frames then
      if frame_count % 5 = 0 then
        let c := { (analyze f) with frame_number := frame_count }
        let best' := if best.confidence < c.confidence then c else best
        if 8/10 < c.confidence then (best', [c])
        else
          let r := analyzeVideoLoop analyze max_frames best' (frame_count + 1) rest
          (r.1, c :: r.2)
      else analyzeVideoLoop analyze max_frames best (frame_count + 1) rest
    else (best, [])

/-- Embedding of `analyze_video_for_slate` (the loop's returned best candidate). -/
def analyze_video_for_slate {α : Type} (analyze : α → SlateInfo)
    (max_frames : Nat) (frames : List α) : SlateInfo :=
  (analyzeVideoLoop analyze max_frames SlateInfo.empty 0 frames).1

/-- The candidates the loop of `analyze_video_for_slate` actually analyzed,
in order; frames after an early exit (or beyond the cap) do not appear. -/
def sampledCandidates {α : Type} (analyze : α → SlateInfo)
    (max_frames : Nat) (frames : List α) : List SlateInfo :=
  (analyzeVideoLoop analyze max_frames SlateInfo.empty 0 frames).2

/-- Status strings of a per-clip result dictionary in `analyze_clips_and_rename`. -/
inductive ClipStatus where
  | renamed
  | skipped
  | error
deriving DecidableEq, Repr

/-- The per-clip failure reasons recorded by `analyze_clips_and_rename`
(each constructor stands for the corresponding reason string of the source:
"File path not found or file does not exist",
"Low confidence slate detection ({confidence})",
"Generated name same as original", "Failed to rename clip",
"Analysis error: {message}"). -/
inductive SkipReason where
  | fileNotFound
  | lowConfidence (confidence : ℚ)
  | nameUnchanged
  | renameFailed
  | analysisError (message : List Char)
deriving DecidableEq, Repr

/-- A per-clip result dictionary of `analyze_clips_and_rename`. -/
structure ClipResult where
  original_name : List Char
  status : ClipStatus
  reason : Option SkipReason := none
  new_name : Option (List Char) := none
  slate_fields : Option SlateInfo := none
  confidence : Option ℚ := none
deriving DecidableEq, Repr

/-- A clip as seen by the batch loop, with its external collaborators'
answers as data: `GetName()`, whether `GetClipProperty("File Path")` yields a
truthy path that exists on disk, the outcome of `analyze_video_for_slate`
(an exception message or a `SlateInfo`), and the success of
`SetClipProperty("Clip Name", ...)` when a rename is attempted. -/
structure Clip where
  name : List Char
  file_ok : Bool
  analysis : Except (List Char) SlateInfo
  rename_ok : Bool
deriving Repr

/-- The aggregate results dictionary of `analyze_clips_and_rename`. -/
structure BatchResult where
  analyzed_clips : Nat := 0
  successful_renames : Nat := 0
  failed_renames : Nat := 0
  clip_results : List ClipResult := []
deriving DecidableEq, Repr

/-- One iteration of the clip loop of `analyze_clips_and_rename`: count the
clip as analyzed, then follow the source's control flow — skip on a missing
file, record an error on an analysis exception, skip below confidence 0.3,
skip when the generated name is unchanged, simulate the rename on a dry run,
otherwise attempt it and record success or failure. -/
def processClipStep (dry_run : Bool) (res : BatchResult) (clip : Clip) : BatchResult :=
  let res := { res with analyzed_clips := res.analyzed_clips + 1 }
  if !clip.file_ok then
    { res with clip_results := res.clip_results ++
        [{ original_name := clip.name, status := .skipped, reason := some .fileNotFound }] }
  else
    match clip.analysis with
    | .error msg =>
      { res with
        failed_renames := res.failed_renames + 1,
        clip_results := res.clip_results ++
          [{ original_name := clip.name, status := .error,
             reason := some (.analysisError msg) }] }
    | .ok slate_info =>
      if slate_info.confidence < 3/10 then
        { res with clip_results := res.clip_results ++
            [{ original_name := clip.name, status := .skipped,
               reason := some (.lowConfidence slate_info.confidence) }] }
      else
        let new_name := generate_clip_name slate_info clip.name
        if new_name = clip.name then
          { res with clip_results := res.clip_results ++
              [{ original_name := clip.name, status := .skipped,
                 reason := some .nameUnchanged }] }
        else if dry_run then
          { res with
            successful_renames := res.successful_renames + 1,
            clip_results := res.clip_results ++
              [{ original_name := clip.name, status := .renamed,
                 new_name := some new_name, slate_fields := some slate_info,
                 confidence := some slate_info.confidence }] }
        else if clip.rename_ok then
          { res with
            successful_renames := res.successful_renames + 1,
            clip_results := res.clip_results ++
              [{ original_name := clip.name, status := .renamed,
                 new_name := some new_name, slate_fields := some slate_info,
                 confidence := some slate_info.confidence }] }
        else
          { res with
            failed_renames := res.failed_renames + 1,
            clip_results := res.clip_results ++
              [{ original_name := clip.name, status := .error,
                 reason := some .renameFailed,
                 new_name := some new_name, slate_fields := some slate_info,
                 confidence := some slate_info.confidence }] }

/-- The clip loop of `analyze_clips_and_rename`, given the clip listing (the
claims considered here presuppose available dependencies and a successful
`folder.GetClips()`, i.e. the loop itself). -/
def analyze_clips_and_rename (dry_run : Bool) (clips : List Clip) : BatchResult :=
  clips.foldl (processClipStep dry_run) {}

/-!
Characterizations of the parser's per-field behavior, used to settle the
overwrite claim: for each keyword field, the value extracted from one
word/next-word pair, the last such value in a word list, the last such value
in a (guarded) line, and the last such value across all lines; for the
production field, the first eligible line.  In all the `last`-combinators a
later match takes priority over an earlier one via `<|>`.
-/

/-- Value the SLATE/SCENE rule writes to `slate_number` from one word pair. -/
def slateNumberPair (w1 w2 : List Char) : Option (List Char) :=
  if (w1 = "SLATE".data || w1 = "SCENE".data)
      && pyIsAlnum (stripSlashDash (pyStripColon w2)) then
    (if isSubstr "SLATE".data w1 then some (pyStripColon w2) else none)
  else none

/-- Value the SLATE/SCENE rule writes to `scene` from one word pair. -/
def scenePair (w1 w2 : List Char) : Option (List Char) :=
  if (w1 = "SLATE".data || w1 = "SCENE".data)
      && pyIsAlnum (stripSlashDash (pyStripColon w2)) then
    (if isSubstr "SLATE".data w1 then none else some (pyStripColon w2))
  else none

/-- Value the TAKE rule writes from one word pair. -/
def takePair (w1 w2 : List Char) : Option (List Char) :=
  if isSubstr "TAKE".data w1 && pyIsDigit (pyStripColon w2) then
    some (pyStripColon w2)
  else none

/-- Value the ROLL rule writes from one word pair. -/
def rollPair (w1 w2 : List Char) : Option (List Char) :=
  if isSubstr "ROLL".data w1 && pyIsAlnum (stripSlashDash (pyStripColon w2)) then
    some (pyStripColon w2)
  else none

/-- Value the CAMERA rule writes from one word pair. -/
def cameraPair (w1 w2 : List Char) : Option (List Char) :=
  if (isSubstr "CAMERA".data w1 || isSubstr "CAM".data w1)
      && pyIsAlnum (stripSlashDash (pyStripColon w2)) then
    some (pyStripColon w2)
  else none

/-- Last pair-extracted value in a word list (later pairs take priority). -/
def lastPairValue (f : List Char → List Char → Option (List Char)) :
    List (List Char) → Option (List Char)
  | w1 :: w2 :: rest => lastPairValue f (w2 :: rest) <|> f w1 w2
  | _ => none

/-- Last pair-extracted value in one raw line, under the rule's line guard. -/
def lineLastValue (g : List Char → Bool)
    (f : List Char → List Char → Option (List Char)) (rawLine : List Char) :
    Option (List Char) :=
  let line := upperChars (pyStrip rawLine)
  if g line then lastPairValue f (pySplitWs line) else none

/-- Last pair-extracted value across all lines (later lines take priority). -/
def linesLastValue (g : List Char → Bool)
    (f : List Char → List Char → Option (List Char)) :
    List (List Char) → Option (List Char)
  | [] => none
  | l :: rest => linesLastValue g f rest <|> lineLastValue g f l

/-- Normalized form of the first production-eligible line, if any
(earlier lines take priority). -/
def firstProductionValue : List (List Char) → Option (List Char)
  | [] => none
  | l :: rest =>
    if productionEligible (upperChars (pyStrip l)) then
      some (upperChars (pyStrip l))
    else firstProductionValue rest

lemma orElseAssoc {α : Type} (a b c : Option α) :
    ((a <|> b) <|> c) = (a <|> (b <|> c)) := by
  cases a <;> rfl

lemma orElseSomeLeft {α : Type} (v : α) (b : Option α) :
    ((some v <|> b) = some v) := rfl

lemma orElseNoneLeft {α : Type} (b : Option α) : ((none <|> b) = b) := rfl

lemma orElseNoneRight {α : Type} (a : Option α) : ((a <|> none) = a) := by
  cases a <;> rfl

lemma scanSlateScene_eq (ws : List (List Char)) : ∀ s : SlateInfo,
    scanSlateScene s ws = { s with
      slate_number := lastPairValue slateNumberPair ws <|> s.slate_number,
      scene := lastPairValue scenePair ws <|> s.scene } := by
  induction ws with
  | nil => intro s; rfl
  | cons w1 rest ih =>
    cases rest with
    | nil => intro s; rfl
    | cons w2 rest2 =>
      intro s
      show scanSlateScene _ (w2 :: rest2) = _
      rw [ih]
      simp only [lastPairValue, slateNumberPair, scenePair]
      by_cases h1 : ((w1 = "SLATE".data || w1 = "SCENE".data)
          && pyIsAlnum (stripSlashDash (pyStripColon w2))) = true
      · by_cases h2 : isSubstr "SLATE".data w1 = true
        · simp [h1, h2, orElseAssoc, orElseSomeLeft, orElseNoneLeft]
        · simp [h1, h2, orElseAssoc, orElseSomeLeft, orElseNoneLeft]
      · simp [h1, orElseAssoc, orElseNoneLeft]

lemma scanTake_eq (ws : List (List Char)) : ∀ s : SlateInfo,
    scanTake s ws = { s with take := lastPairValue takePair ws <|> s.take } := by
  induction ws with
  | nil => intro s; rfl
  | cons w1 rest ih =>
    cases rest with
    | nil => intro s; rfl
    | cons w2 rest2 =>
      intro s
      show scanTake _ (w2 :: rest2) = _
      rw [ih]
      simp only [lastPairValue, takePair]
      by_cases h1 : (isSubstr "TAKE".data w1 && pyIsDigit (pyStripColon w2)) = true
      · simp [h1, orElseAssoc, orElseSomeLeft]
      · simp [h1, orElseAssoc, orElseNoneLeft]

lemma scanRoll_eq (ws : List (List Char)) : ∀ s : SlateInfo,
    scanRoll s ws = { s with roll := lastPairValue rollPair ws <|> s.roll } := by
  induction ws with
  | nil => intro s; rfl
  | cons w1 rest ih =>
    cases rest with
    | nil => intro s; rfl
    | cons w2 rest2 =>
      intro s
      show scanRoll _ (w2 :: rest2) = _
      rw [ih]
      simp only [lastPairValue, rollPair]
      by_cases h1 : (isSubstr "ROLL".data w1
          && pyIsAlnum (stripSlashDash (pyStripColon w2))) = true
      · simp [h1, orElseAssoc, orElseSomeLeft]
      · simp [h1, orElseAssoc, orElseNoneLeft]

lemma scanCamera_eq (ws : List (List Char)) : ∀ s : SlateInfo,
    scanCamera s ws = { s with camera := lastPairValue cameraPair ws <|> s.camera } := by
  induction ws with
  | nil => intro s; rfl
  | cons w1 rest ih =>
    cases rest with
    | nil => intro s; rfl
    | cons w2 rest2 =>
      intro s
      show scanCamera _ (w2 :: rest2) = _
      rw [ih]
      simp only [lastPairValue, cameraPair]
      by_cases h1 : ((isSubstr "CAMERA".data w1 || isSubstr "CAM".data w1)
          && pyIsAlnum (stripSlashDash (pyStripColon w2))) = true
      · simp [h1, orElseAssoc, orElseSomeLeft]
      · simp [h1, orElseAssoc, orElseNoneLeft]

lemma productionEligible_truthy {line : List Char}
    (h : productionEligible line = true) : isTruthy (some line) = true := by
  have h5 : 5 < line.length := by
    have := (Bool.and_eq_true _ _).mp ((Bool.and_eq_true _ _).mp h).1
    exact of_decide_eq_true this.1
  cases line with
  | nil => simp at h5
  | cons c rest => rfl

lemma processLine_eq (s : SlateInfo) (l : List Char) :
    processLine s l = { s with
      slate_number := lineLastValue guardSlateScene slateNumberPair l <|> s.slate_number,
      scene := lineLastValue guardSlateScene scenePair l <|> s.scene,
      take := lineLastValue guardTake takePair l <|> s.take,
      roll := lineLastValue guardRoll rollPair l <|> s.roll,
      camera := lineLastValue guardCamera cameraPair l <|> s.camera,
      production := if productionEligible (upperChars (pyStrip l))
            && !(isTruthy s.production) then
          some (upperChars (pyStrip l))
        else s.production } := by
  unfold processLine lineLastValue
  by_cases hg1 : guardSlateScene (upperChars (pyStrip l)) = true <;>
    by_cases hg2 : guardTake (upperChars (pyStrip l)) = true <;>
      by_cases hg3 : guardRoll (upperChars (pyStrip l)) = true <;>
        by_cases hg4 : guardCamera (upperChars (pyStrip l)) = true <;>
          by_cases hp : productionEligible (upperChars (pyStrip l)) = true <;>
            by_cases ht : isTruthy s.production = true <;>
              simp [hg1, hg2, hg3, hg4, hp, ht, scanSlateScene_eq, scanTake_eq,
                scanRoll_eq, scanCamera_eq, orElseNoneLeft]

lemma foldl_processLine_eq (lines : List (List Char)) : ∀ s : SlateInfo,
    lines.foldl processLine s = { s with
      slate_number := linesLastValue guardSlateScene slateNumberPair lines <|> s.slate_number,
      scene := linesLastValue guardSlateScene scenePair lines <|> s.scene,
      take := linesLastValue guardTake takePair lines <|> s.take,
      roll := linesLastValue guardRoll rollPair lines <|> s.roll,
      camera := linesLastValue guardCamera cameraPair lines <|> s.camera,
      production := if isTruthy s.production then s.production
        else (firstProductionValue lines <|> s.production) } := by
  induction lines with
  | nil =>
    intro s
    cases ht : isTruthy s.production <;>
      simp [linesLastValue, firstProductionValue, orElseNoneLeft]
  | cons l rest ih =>
    intro s
    show rest.foldl processLine (processLine s l) = _
    rw [processLine_eq, ih]
    simp only [linesLastValue, firstProductionValue]
    by_cases ht : isTruthy s.production = true
    · simp [ht, orElseAssoc]
    · by_cases hp : productionEligible (upperChars (pyStrip l)) = true
      · simp [ht, hp, orElseAssoc, productionEligible_truthy hp, orElseSomeLeft]
      · simp [ht, hp, orElseAssoc]

/-- C1 (counterexample): the parser does not obey first-match-wins.  The line
"TAKE 1" alone sets take to "1", but with the later line "TAKE 2" appended the
parsed take is no longer the first match's value — the later line overwrote it. -/
theorem C1_counterexample :
    (parse_slate_text "TAKE 1".data).take = some "1".data ∧
    (parse_slate_text "TAKE 1\nTAKE 2".data).take ≠ some "1".data ∧
    (parse_slate_text "TAKE 1\nTAKE 2".data).take = some "2".data := by
  decide

/-- C1 (amended): for every input text, each of slate_number, scene, take,
roll and camera holds the value of the LAST successful match (later lines
overwrite earlier ones, and later token matches within a line overwrite
earlier ones); only production obeys first-match-wins, holding the normalized
form of the first production-eligible line. -/
theorem C1_last_match_wins (text : List Char) :
    (parse_slate_text text).slate_number
      = linesLastValue guardSlateScene slateNumberPair (pySplitOn '\n' (pyStrip text)) ∧
    (parse_slate_text text).scene
      = linesLastValue guardSlateScene scenePair (pySplitOn '\n' (pyStrip text)) ∧
    (parse_slate_text text).take
      = linesLastValue guardTake takePair (pySplitOn '\n' (pyStrip text)) ∧
    (parse_slate_text text).roll
      = linesLastValue guardRoll rollPair (pySplitOn '\n' (pyStrip text)) ∧
    (parse_slate_text text).camera
      = linesLastValue guardCamera cameraPair (pySplitOn '\n' (pyStrip text)) ∧
    (parse_slate_text text).production
      = firstProductionValue (pySplitOn '\n' (pyStrip text)) := by
  unfold parse_slate_text
  rw [foldl_processLine_eq]
  simp [SlateInfo.empty, isTruthy, orElseNoneRight]

/-- C2 (counterexample): the text "SCENE: 5A\nTAKE: 3\nCAMERA: A" does not
parse to scene = "5A" with confidence 0.6.  The SLATE/SCENE rule demands a
token exactly equal to "SCENE", and the token "SCENE:" (with its colon) is
not equal to it, so scene stays unset. -/
theorem C2_counterexample :
    ¬((parse_slate_text "SCENE: 5A\nTAKE: 3\nCAMERA: A".data).scene
        = some "5A".data ∧
      calculate_confidence (parse_slate_text "SCENE: 5A\nTAKE: 3\nCAMERA: A".data)
        "SCENE: 5A\nTAKE: 3\nCAMERA: A".data = 6/10) := by
  intro h
  exact absurd h.1 (by decide)

/-- C2 (amended): the text "SCENE: 5A\nTAKE: 3\nCAMERA: A" parses to
take = "3" and camera = "A" with scene and every other field unset (the TAKE
and CAMERA rules match tokens by substring, the SCENE rule by exact equality,
which "SCENE:" fails), and scoring the parse against this raw text yields
confidence exactly 0.4 = 0.1 (length) + 0.2 (take) + 0.1 (camera). -/
theorem C2_example_parse_and_score :
    parse_slate_text "SCENE: 5A\nTAKE: 3\nCAMERA: A".data
      = { take := some "3".data, camera := some "A".data } ∧
    calculate_confidence (parse_slate_text "SCENE: 5A\nTAKE: 3\nCAMERA: A".data)
      "SCENE: 5A\nTAKE: 3\nCAMERA: A".data = 4/10 := by
  have hp : parse_slate_text "SCENE: 5A\nTAKE: 3\nCAMERA: A".data
      = { take := some "3".data, camera := some "A".data } := by decide
  refine ⟨hp, ?_⟩
  rw [hp]
  have hlen : 10 < (pyStrip "SCENE: 5A\nTAKE: 3\nCAMERA: A".data).length := by decide
  have h1 : isTruthy (some "3".data) = true := by decide
  have h2 : isTruthy (some "A".data) = true := by decide
  simp [calculate_confidence, hlen, h1, h2, isTruthy]
  norm_num [min_def]

/-- C3 (counterexample): the production field does not keep the line's
original case.  The line "Myproduction" is assigned as "MYPRODUCTION", not as
its trimmed original-case form. -/
theorem C3_counterexample :
    (parse_slate_text "Myproduction".data).production
        ≠ some (pyStrip "Myproduction".data) ∧
    (parse_slate_text "Myproduction".data).production
        = some "MYPRODUCTION".data := by
  decide

/-- C3 (amended): a line whose normalized (trimmed, uppercased) form contains
none of SLATE, SCENE, TAKE, ROLL, CAMERA or CAM, is longer than 5 characters
and purely alphanumeric after removing spaces is assigned to production while
production is unset — in its trimmed, UPPERCASED form (the parser uppercases
the line before every rule, including this assignment). -/
theorem C3_production_uppercased (s : SlateInfo) (rawLine : List Char)
    (hprod : isTruthy s.production = false)
    (h1 : isSubstr "SLATE".data (upperChars (pyStrip rawLine)) = false)
    (h2 : isSubstr "SCENE".data (upperChars (pyStrip rawLine)) = false)
    (h3 : isSubstr "TAKE".data (upperChars (pyStrip rawLine)) = false)
    (h4 : isSubstr "ROLL".data (upperChars (pyStrip rawLine)) = false)
    (h5 : isSubstr "CAMERA".data (upperChars (pyStrip rawLine)) = false)
    (h6 : isSubstr "CAM".data (upperChars (pyStrip rawLine)) = false)
    (h7 : 5 < (upperChars (pyStrip rawLine)).length)
    (h8 : pyIsAlnum ((upperChars (pyStrip rawLine)).filter (fun c => c != ' ')) = true) :
    (processLine s rawLine).production = some (upperChars (pyStrip rawLine)) := by
  rw [processLine_eq]
  simp [productionEligible, h1, h2, h3, h4, h5, h7, h8, hprod]

/-- C3 (witness): the amended theorem applied to the line "Myproduction"
starting from a fresh SlateInfo. -/
theorem C3_production_uppercased_witness :
    (processLine SlateInfo.empty "Myproduction".data).production
      = some (upperChars (pyStrip "Myproduction".data)) :=
  C3_production_uppercased SlateInfo.empty "Myproduction".data (by decide)
    (by decide) (by decide) (by decide) (by decide) (by decide) (by decide)
    (by decide) (by decide)

set_option maxHeartbeats 3000000 in
/-- C4: for every SlateInfo and raw text, the confidence calculation returns
exactly the clamp-at-1 of the spec's weighted sum (0.1 for trimmed raw text
longer than 10 characters, 0.3/0.2/0.2/0.1/0.1/0.1 for set slate_number /
scene / take / roll / camera / production), and the result lies in [0, 1]. -/
theorem C4_confidence_clamped_sum (info : SlateInfo) (raw : List Char) :
    calculate_confidence info raw = min (confidence_spec_score info raw) 1 ∧
    0 ≤ calculate_confidence info raw ∧ calculate_confidence info raw ≤ 1 := by
  refine ⟨?_, ?_, ?_⟩
  · simp only [calculate_confidence, confidence_spec_score]
    split_ifs <;> norm_num [min_def]
  · simp only [calculate_confidence]
    refine le_min ?_ (by norm_num)
    split_ifs <;> norm_num
  · simp only [calculate_confidence]
    exact min_le_right _ _

lemma analyzeVideoLoop_spec {α : Type} (analyze : α → SlateInfo) (m : Nat) :
    ∀ (frames : List α) (best : SlateInfo) (k : Nat),
      (∀ x ∈ (analyzeVideoLoop analyze m best k frames).2,
        x.confidence ≤ (analyzeVideoLoop analyze m best k frames).1.confidence) ∧
      best.confidence ≤ (analyzeVideoLoop analyze m best k frames).1.confidence ∧
      ((analyzeVideoLoop analyze m best k frames).1 = best ∨
        ∃ i c, (analyzeVideoLoop analyze m best k frames).2.get? i = some c ∧
          (analyzeVideoLoop analyze m best k frames).1 = c ∧
          best.confidence < c.confidence ∧
          ∀ j d, j < i →
            (analyzeVideoLoop analyze m best k frames).2.get? j = some d →
            d.confidence < c.confidence) := by
  intro frames
  induction frames with
  | nil =>
    intro best k
    refine ⟨by simp [analyzeVideoLoop], le_refl _, Or.inl rfl⟩
  | cons f rest ih =>
    intro best k
    by_cases hk : k < m
    · by_cases h5 : k % 5 = 0
      · have hcb : (({ (analyze f) with frame_number := k } : SlateInfo)).confidence ≤
            (if best.confidence <
                ({ (analyze f) with frame_number := k } : SlateInfo).confidence then
              ({ (analyze f) with frame_number := k } : SlateInfo)
            else best).confidence := by
          split
          · exact le_refl _
          · next h => exact le_of_not_lt h
        have hbb : best.confidence ≤
            (if best.confidence <
                ({ (analyze f) with frame_number := k } : SlateInfo).confidence then
              ({ (analyze f) with frame_number := k } : SlateInfo)
            else best).confidence := by
          split
          · next h => exact le_of_lt h
          · exact le_refl _
        by_cases hexit : (8 : ℚ)/10 <
            ({ (analyze f) with frame_number := k } : SlateInfo).confidence
        · have he : analyzeVideoLoop analyze m best k (f :: rest) =
              ((if best.confidence <
                  ({ (analyze f) with frame_number := k } : SlateInfo).confidence then
                ({ (analyze f) with frame_number := k } : SlateInfo)
              else best),
              [{ (analyze f) with frame_number := k }]) := by
            simp only [analyzeVideoLoop, if_pos hk, if_pos h5, if_pos hexit]
          rw [he]
          refine ⟨?_, hbb, ?_⟩
          · intro x hx
            rw [List.mem_singleton] at hx
            subst hx
            exact hcb
          · by_cases hlt : best.confidence <
                ({ (analyze f) with frame_number := k } : SlateInfo).confidence
            · refine Or.inr ⟨0, { (analyze f) with frame_number := k }, rfl, ?_, hlt, ?_⟩
              · simp [if_pos hlt]
              · intro j d hj
                exact absurd hj (Nat.not_lt_zero j)
            · exact Or.inl (by simp [if_neg hlt])
        · have he : analyzeVideoLoop analyze m best k (f :: rest) =
              ((analyzeVideoLoop analyze m
                  (if best.confidence <
                      ({ (analyze f) with frame_number := k } : SlateInfo).confidence then
                    ({ (analyze f) with frame_number := k } : SlateInfo)
                  else best) (k + 1) rest).1,
              { (analyze f) with frame_number := k } ::
                (analyzeVideoLoop analyze m
                  (if best.confidence <
                      ({ (analyze f) with frame_number := k } : SlateInfo).confidence then
                    ({ (analyze f) with frame_number := k } : SlateInfo)
                  else best) (k + 1) rest).2) := by
            simp only [analyzeVideoLoop, if_pos hk, if_pos h5, if_neg hexit]
          rw [he]
          obtain ⟨ih1, ih2, ih3⟩ := ih
            (if best.confidence <
                ({ (analyze f) with frame_number := k } : SlateInfo).confidence then
              ({ (analyze f) with frame_number := k } : SlateInfo)
            else best) (k + 1)
          refine ⟨?_, le_trans hbb ih2, ?_⟩
          · intro x hx
            rcases List.mem_cons.mp hx with hx | hx
            · subst hx
              exact le_trans hcb ih2
            · exact ih1 x hx
          · rcases ih3 with ih3 | ⟨i, c, hget, heq, hstrict, hbefore⟩
            · by_cases hlt : best.confidence <
                  ({ (analyze f) with frame_number := k } : SlateInfo).confidence
              · refine Or.inr ⟨0, { (analyze f) with frame_number := k }, rfl, ?_, hlt, ?_⟩
                · rw [ih3, if_pos hlt]
                · intro j d hj
                  exact absurd hj (Nat.not_lt_zero j)
              · refine Or.inl ?_
                rw [ih3, if_neg hlt]
            · refine Or.inr ⟨i + 1, c, hget, heq, lt_of_le_of_lt hbb hstrict, ?_⟩
              intro j d hj hgd
              cases j with
              | zero =>
                simp only [List.get?] at hgd
                cases hgd
                exact lt_of_le_of_lt hcb hstrict
              | succ j' =>
                exact hbefore j' d (Nat.lt_of_succ_lt_succ hj) hgd
      · have he : analyzeVideoLoop analyze m best k (f :: rest) =
            analyzeVideoLoop analyze m best (k + 1) rest := by
          simp only [analyzeVideoLoop, if_pos hk, if_neg h5]
        rw [he]
        exact ih best (k + 1)
    · refine ⟨by simp [analyzeVideoLoop, hk], ?_, ?_⟩
      · simp [analyzeVideoLoop, hk]
      · exact Or.inl (by simp [analyzeVideoLoop, hk])

lemma analyzeVideoLoop_exit {α : Type} (analyze : α → SlateInfo) (m : Nat) :
    ∀ (frames : List α) (best : SlateInfo) (k : Nat),
      best.confidence ≤ 8/10 →
      ∀ i c, (analyzeVideoLoop analyze m best k frames).2.get? i = some c →
        (8 : ℚ)/10 < c.confidence →
        i + 1 = (analyzeVideoLoop analyze m best k frames).2.length ∧
        (analyzeVideoLoop analyze m best k frames).1 = c := by
  intro frames
  induction frames with
  | nil =>
    intro best k _ i c hget
    simp [analyzeVideoLoop] at hget
  | cons f rest ih =>
    intro best k hb i c hget hconf
    by_cases hk : k < m
    · by_cases h5 : k % 5 = 0
      · by_cases hexit : (8 : ℚ)/10 <
            ({ (analyze f) with frame_number := k } : SlateInfo).confidence
        · have he : analyzeVideoLoop analyze m best k (f :: rest) =
              ((if best.confidence <
                  ({ (analyze f) with frame_number := k } : SlateInfo).confidence then
                ({ (analyze f) with frame_number := k } : SlateInfo)
              else best),
              [{ (analyze f) with frame_number := k }]) := by
            simp only [analyzeVideoLoop, if_pos hk, if_pos h5, if_pos hexit]
          rw [he] at hget ⊢
          cases i with
          | zero =>
            simp only [List.get?] at hget
            cases hget
            refine ⟨rfl, ?_⟩
            have hlt : best.confidence <
                ({ (analyze f) with frame_number := k } : SlateInfo).confidence :=
              lt_of_le_of_lt hb hexit
            simp [if_pos hlt]
          | succ i' =>
            simp [List.get?] at hget
        · have hcle : (({ (analyze f) with frame_number := k } : SlateInfo)).confidence
              ≤ 8/10 := le_of_not_lt hexit
          have hb' : (if best.confidence <
                ({ (analyze f) with frame_number := k } : SlateInfo).confidence then
              ({ (analyze f) with frame_number := k } : SlateInfo)
            else best).confidence ≤ 8/10 := by
            split
            · exact hcle
            · exact hb
          have he : analyzeVideoLoop analyze m best k (f :: rest) =
              ((analyzeVideoLoop analyze m
                  (if best.confidence <
                      ({ (analyze f) with frame_number := k } : SlateInfo).confidence then
                    ({ (analyze f) with frame_number := k } : SlateInfo)
                  else best) (k + 1) rest).1,
              { (analyze f) with frame_number := k } ::
                (analyzeVideoLoop analyze m
                  (if best.confidence <
                      ({ (analyze f) with frame_number := k } : SlateInfo).confidence then
                    ({ (analyze f) with frame_number := k } : SlateInfo)
                  else best) (k + 1) rest).2) := by
            simp only [analyzeVideoLoop, if_pos hk, if_pos h5, if_neg hexit]
          rw [he] at hget ⊢
          cases i with
          | zero =>
            simp only [List.get?] at hget
            cases hget
            exact absurd hconf (not_lt_of_le hcle)
          | succ i' =>
            simp only [List.get?] at hget
            obtain ⟨hl, hr⟩ := ih _ (k + 1) hb' i' c hget hconf
            refine ⟨?_, hr⟩
            simp only [List.length_cons, hl]
      · have he : analyzeVideoLoop analyze m best k (f :: rest) =
            analyzeVideoLoop analyze m best (k + 1) rest := by
          simp only [analyzeVideoLoop, if_pos hk, if_neg h5]
        rw [he] at hget ⊢
        exact ih best (k + 1) hb i c hget hconf
    · have he : analyzeVideoLoop analyze m best k (f :: rest) = (best, []) := by
        simp only [analyzeVideoLoop, if_neg hk]
      rw [he] at hget
      simp at hget

/-- C5: the returned candidate's confidence is greater than or equal to the
confidence of every frame candidate the loop considered, and the result is
either the initial fresh SlateInfo or a considered candidate that strictly
exceeds every candidate seen before it (the best is replaced only on strictly
greater confidence, so the earliest-seen among equal-confidence candidates
is returned). -/
theorem C5_max_selection {α : Type} (analyze : α → SlateInfo)
    (max_frames : Nat) (frames : List α) :
    (∀ x ∈ sampledCandidates analyze max_frames frames,
      x.confidence ≤ (analyze_video_for_slate analyze max_frames frames).confidence) ∧
    (analyze_video_for_slate analyze max_frames frames = SlateInfo.empty ∨
      ∃ i c, (sampledCandidates analyze max_frames frames).get? i = some c ∧
        analyze_video_for_slate analyze max_frames frames = c ∧
        ∀ j d, j < i → (sampledCandidates analyze max_frames frames).get? j = some d →
          d.confidence < c.confidence) := by
  obtain ⟨h1, _, h3⟩ :=
    analyzeVideoLoop_spec analyze max_frames frames SlateInfo.empty 0
  refine ⟨h1, ?_⟩
  rcases h3 with h | ⟨i, c, hget, heq, _, hbefore⟩
  · exact Or.inl h
  · exact Or.inr ⟨i, c, hget, heq, hbefore⟩

/-- C5 (witness): the max-selection law applied to a one-frame video whose
single analyzed candidate is the fresh SlateInfo itself. -/
theorem C5_max_selection_witness :
    SlateInfo.empty.confidence ≤
      (analyze_video_for_slate id 30 [SlateInfo.empty]).confidence := by
  have hmem : SlateInfo.empty ∈ sampledCandidates id 30 [SlateInfo.empty] := by
    have h1 : ¬((0 : ℚ) < 0) := lt_irrefl 0
    have h2 : ¬((8 : ℚ)/10 < 0) := by norm_num
    simp [sampledCandidates, analyzeVideoLoop, SlateInfo.empty, h1, h2]
  exact (C5_max_selection id 30 [SlateInfo.empty]).1 SlateInfo.empty hmem

/-- C6: the early-exit law — if a considered candidate's confidence strictly
exceeds 0.8 then it is the last candidate the loop considered (no later frame
is sampled) and it is exactly the SlateInfo the selector returns. -/
theorem C6_early_exit {α : Type} (analyze : α → SlateInfo)
    (max_frames : Nat) (frames : List α) (i : Nat) (c : SlateInfo)
    (hget : (sampledCandidates analyze max_frames frames).get? i = some c)
    (hconf : (8 : ℚ)/10 < c.confidence) :
    i + 1 = (sampledCandidates analyze max_frames frames).length ∧
    analyze_video_for_slate analyze max_frames frames = c := by
  have hb : SlateInfo.empty.confidence ≤ 8/10 := by
    simp [SlateInfo.empty]
    norm_num
  exact analyzeVideoLoop_exit analyze max_frames frames SlateInfo.empty 0 hb i c hget hconf

/-- The high-confidence candidate used to witness the early-exit law. -/
def highConf : SlateInfo := { confidence := 9/10 }

/-- C6 (witness): a two-frame video whose first analyzed candidate scores 0.9
exits immediately — only one candidate is considered and it is returned. -/
theorem C6_early_exit_witness :
    0 + 1 = (sampledCandidates id 30 [highConf, SlateInfo.empty]).length ∧
    analyze_video_for_slate id 30 [highConf, SlateInfo.empty] = highConf := by
  have h1 : (0 : ℚ) < 9/10 := by norm_num
  have h2 : (8 : ℚ)/10 < 9/10 := by norm_num
  have hget : (sampledCandidates id 30 [highConf, SlateInfo.empty]).get? 0
      = some highConf := by
    simp [sampledCandidates, analyzeVideoLoop, highConf, SlateInfo.empty, h1, h2]
  have hconf : (8 : ℚ)/10 < highConf.confidence := by
    simp [highConf]
    norm_num
  exact C6_early_exit id 30 [highConf, SlateInfo.empty] 0 highConf hget hconf

/-- C7: if production, scene, slate_number, take and camera are all unset,
generate_clip_name returns the original name unchanged. -/
theorem C7_identity (info : SlateInfo) (name : List Char)
    (h1 : info.production = none) (h2 : info.scene = none)
    (h3 : info.slate_number = none) (h4 : info.take = none)
    (h5 : info.camera = none) :
    generate_clip_name info name = name := by
  unfold generate_clip_name
  simp [h1, h2, h3, h4, h5, isTruthy]

/-- C7 (witness): the identity law at a fresh SlateInfo and a concrete name. -/
theorem C7_identity_witness :
    generate_clip_name SlateInfo.empty "CLIP_0042.mov".data = "CLIP_0042.mov".data :=
  C7_identity SlateInfo.empty "CLIP_0042.mov".data rfl rfl rfl rfl rfl

/-- The ClipResult one clip contributes, as a function of the clip and the
dry-run flag alone (the batch loop appends exactly this record for the clip). -/
def clipOutcome (dry_run : Bool) (clip : Clip) : ClipResult :=
  if !clip.file_ok then
    { original_name := clip.name, status := .skipped, reason := some .fileNotFound }
  else
    match clip.analysis with
    | .error msg =>
      { original_name := clip.name, status := .error,
        reason := some (.analysisError msg) }
    | .ok slate_info =>
      if slate_info.confidence < 3/10 then
        { original_name := clip.name, status := .skipped,
          reason := some (.lowConfidence slate_info.confidence) }
      else
        let new_name := generate_clip_name slate_info clip.name
        if new_name = clip.name then
          { original_name := clip.name, status := .skipped,
            reason := some .nameUnchanged }
        else if dry_run then
          { original_name := clip.name, status := .renamed,
            new_name := some new_name, slate_fields := some slate_info,
            confidence := some slate_info.confidence }
        else if clip.rename_ok then
          { original_name := clip.name, status := .renamed,
            new_name := some new_name, slate_fields := some slate_info,
            confidence := some slate_info.confidence }
        else
          { original_name := clip.name, status := .error,
            reason := some .renameFailed,
            new_name := some new_name, slate_fields := some slate_info,
            confidence := some slate_info.confidence }

lemma processClipStep_clip_results (dry_run : Bool) (res : BatchResult) (clip : Clip) :
    (processClipStep dry_run res clip).clip_results
      = res.clip_results ++ [clipOutcome dry_run clip] := by
  obtain ⟨name, fok, ana, rok⟩ := clip
  cases fok <;> cases ana <;>
    simp only [processClipStep, clipOutcome] <;> split_ifs <;> simp

lemma processClipStep_analyzed (dry_run : Bool) (res : BatchResult) (clip : Clip) :
    (processClipStep dry_run res clip).analyzed_clips = res.analyzed_clips + 1 := by
  obtain ⟨name, fok, ana, rok⟩ := clip
  cases fok <;> cases ana <;>
    simp only [processClipStep] <;> split_ifs <;> simp

lemma processClipStep_counters (dry_run : Bool) (res : BatchResult) (clip : Clip) :
    (processClipStep dry_run res clip).successful_renames
      + (processClipStep dry_run res clip).failed_renames
      ≤ res.successful_renames + res.failed_renames + 1 := by
  obtain ⟨name, fok, ana, rok⟩ := clip
  cases fok <;> cases ana <;>
    simp only [processClipStep] <;> split_ifs <;> simp <;> omega

lemma foldl_processClipStep (dry_run : Bool) : ∀ (clips : List Clip) (acc : BatchResult),
    (clips.foldl (processClipStep dry_run) acc).clip_results
      = acc.clip_results ++ clips.map (clipOutcome dry_run) ∧
    (clips.foldl (processClipStep dry_run) acc).analyzed_clips
      = acc.analyzed_clips + clips.length ∧
    (clips.foldl (processClipStep dry_run) acc).successful_renames
      + (clips.foldl (processClipStep dry_run) acc).failed_renames
      ≤ acc.successful_renames + acc.failed_renames + clips.length := by
  intro clips
  induction clips with
  | nil => intro acc; simp
  | cons clip rest ih =>
    intro acc
    obtain ⟨ih1, ih2, ih3⟩ := ih (processClipStep dry_run acc clip)
    refine ⟨?_, ?_, ?_⟩
    · rw [List.foldl_cons, ih1, processClipStep_clip_results]
      simp
    · rw [List.foldl_cons, ih2, processClipStep_analyzed]
      simp [Nat.add_assoc, Nat.add_comm 1 rest.length]
    · rw [List.foldl_cons]
      refine le_trans ih3 ?_
      have := processClipStep_counters dry_run acc clip
      simp only [List.length_cons]
      omega

lemma clipOutcome_spec (dry_run : Bool) (clip : Clip) :
    (clipOutcome dry_run clip).original_name = clip.name ∧
    ((clipOutcome dry_run clip).status = ClipStatus.renamed ∨
      (clipOutcome dry_run clip).reason.isSome = true) ∧
    (clip.file_ok = false →
      (clipOutcome dry_run clip).status = ClipStatus.skipped ∧
      (clipOutcome dry_run clip).reason = some SkipReason.fileNotFound) ∧
    (∀ msg, clip.file_ok = true → clip.analysis = Except.error msg →
      (clipOutcome dry_run clip).status = ClipStatus.error ∧
      (clipOutcome dry_run clip).reason = some (SkipReason.analysisError msg)) ∧
    (∀ slate_info, clip.file_ok = true → clip.analysis = Except.ok slate_info →
      slate_info.confidence < 3/10 →
      (clipOutcome dry_run clip).status = ClipStatus.skipped ∧
      (clipOutcome dry_run clip).reason
        = some (SkipReason.lowConfidence slate_info.confidence)) ∧
    (∀ slate_info, clip.file_ok = true → clip.analysis = Except.ok slate_info →
      ¬(slate_info.confidence < 3/10) →
      generate_clip_name slate_info clip.name ≠ clip.name →
      dry_run = false → clip.rename_ok = false →
      (clipOutcome dry_run clip).status = ClipStatus.error ∧
      (clipOutcome dry_run clip).reason = some SkipReason.renameFailed) := by
  obtain ⟨name, fok, ana, rok⟩ := clip
  cases fok <;> cases ana <;>
    simp only [clipOutcome] <;> split_ifs <;> simp_all

/-- C8: per-clip failure propagation — given the clip listing, the batch loop
returns one ClipResult per clip, in order (never aborting): each result keeps
the clip's original name, every non-renamed result carries a reason, and each
of the four per-clip failure modes (missing file, analysis exception, low
confidence, rename failure) is recorded in that clip's result with the
corresponding status and reason. -/
theorem C8_failures_recorded (dry_run : Bool) (clips : List Clip) :
    List.Forall₂ (fun clip r =>
      r.original_name = clip.name ∧
      (r.status = ClipStatus.renamed ∨ r.reason.isSome = true) ∧
      (clip.file_ok = false →
        r.status = ClipStatus.skipped ∧ r.reason = some SkipReason.fileNotFound) ∧
      (∀ msg, clip.file_ok = true → clip.analysis = Except.error msg →
        r.status = ClipStatus.error ∧
        r.reason = some (SkipReason.analysisError msg)) ∧
      (∀ slate_info, clip.file_ok = true → clip.analysis = Except.ok slate_info →
        slate_info.confidence < 3/10 →
        r.status = ClipStatus.skipped ∧
        r.reason = some (SkipReason.lowConfidence slate_info.confidence)) ∧
      (∀ slate_info, clip.file_ok = true → clip.analysis = Except.ok slate_info →
        ¬(slate_info.confidence < 3/10) →
        generate_clip_name slate_info clip.name ≠ clip.name →
        dry_run = false → clip.rename_ok = false →
        r.status = ClipStatus.error ∧ r.reason = some SkipReason.renameFailed))
      clips (analyze_clips_and_rename dry_run clips).clip_results := by
  have hres : (analyze_clips_and_rename dry_run clips).clip_results
      = clips.map (clipOutcome dry_run) := by
    have h := (foldl_processClipStep dry_run clips {}).1
    simpa [analyze_clips_and_rename] using h
  rw [hres]
  clear hres
  induction clips with
  | nil => exact List.Forall₂.nil
  | cons clip rest ih =>
    exact List.Forall₂.cons (clipOutcome_spec dry_run clip) ih

/-- C9: the BatchResult invariant — for the whole batch and for every prefix
of it (the state after each processed clip), the analyzed count equals the
number of ClipResults, and successful plus failed renames never exceed the
analyzed count (skipped clips contribute to neither counter). -/
theorem C9_batch_invariant (dry_run : Bool) (clips : List Clip) (n : Nat) :
    ((analyze_clips_and_rename dry_run clips).analyzed_clips
        = (analyze_clips_and_rename dry_run clips).clip_results.length ∧
      (analyze_clips_and_rename dry_run clips).successful_renames
          + (analyze_clips_and_rename dry_run clips).failed_renames
        ≤ (analyze_clips_and_rename dry_run clips).analyzed_clips) ∧
    ((analyze_clips_and_rename dry_run (clips.take n)).analyzed_clips
        = (analyze_clips_and_rename dry_run (clips.take n)).clip_results.length ∧
      (analyze_clips_and_rename dry_run (clips.take n)).successful_renames
          + (analyze_clips_and_rename dry_run (clips.take n)).failed_renames
        ≤ (analyze_clips_and_rename dry_run (clips.take n)).analyzed_clips) := by
  have key : ∀ cs : List Clip,
      (analyze_clips_and_rename dry_run cs).analyzed_clips
          = (analyze_clips_and_rename dry_run cs).clip_results.length ∧
      (analyze_clips_and_rename dry_run cs).successful_renames
          + (analyze_clips_and_rename dry_run cs).failed_renames
        ≤ (analyze_clips_and_rename dry_run cs).analyzed_clips := by
    intro cs
    obtain ⟨h1, h2, h3⟩ := foldl_processClipStep dry_run cs {}
    constructor
    · simp [analyze_clips_and_rename] at h1 h2 ⊢
      rw [h1, h2]
      simp
    · simp [analyze_clips_and_rename] at h2 h3 ⊢
      rw [h2]
      simpa using h3
  exact ⟨key clips, key (clips.take n)⟩

/-- C10: the first text line "CAMCORDER A" (containing the fragment CAM but
not CAMERA, longer than 5 characters, alphanumeric after removing spaces)
sets both camera (via the CAM rule) and production (the production rule's
exclusion list checks CAMERA but not CAM). -/
theorem C10_cam_line_sets_both :
    (parse_slate_text "CAMCORDER A".data).camera = some "A".data ∧
    (parse_slate_text "CAMCORDER A".data).production = some "CAMCORDER A".data := by
  decide

end SlateDetection
